import Mathlib

/-!
Shallow embedding of the safety-gated chaos-experiment execution engine
(`chaos_monkey.safety.controls` and `chaos_monkey.experiments.executor`,
plus the rollback paths of `chaos_monkey.experiments.config_chaos`).

Python dict values that matter to the engine (rollback contexts, the
`details` field of a result) are modelled by the inductive `Val`;
Python truthiness on an optional value is `pyTruthy`.  Exceptions are
modelled by `Except String`; the asyncio timeout of a rollback call is one
of the abstract behaviours a rollback may exhibit.  Side effects on the
resource API and the ledger are recorded as an event trace, each event
carrying the ledger as it stands after the event.
-/

/-- A Python value as used in rollback contexts and result details:
a string, an integer, or a string-keyed mapping. -/
inductive Val where
  | vstr (s : String)
  | vint (n : Int)
  | vmap (m : List (String × Val))

/-- A Python dict with string keys. -/
abbrev PyDict := List (String × Val)

/-- `d.get(k)`: first binding of `k`, `None` when absent. -/
def pyGet (d : PyDict) (k : String) : Option Val :=
  (d.find? (fun kv => kv.fst == k)).map (fun kv => kv.snd)

/-- Python truthiness of an optional value: `None`, `""`, `0` and `{}` are falsy. -/
def pyTruthy : Option Val → Bool
  | none => false
  | some (.vstr s) => !(s == "")
  | some (.vint n) => !(n == 0)
  | some (.vmap m) => !m.isEmpty

/-- `chaos_monkey.experiments.base.BlastRadius`. -/
inductive BlastRadius where
  | low
  | medium
  | high
deriving DecidableEq, Repr

/-- The `.value` string of a `BlastRadius` member. -/
def BlastRadius.value : BlastRadius → String
  | .low => "low"
  | .medium => "medium"
  | .high => "high"

/-- `chaos_monkey.safety.controls.BLAST_RADIUS_ORDER`. -/
def BLAST_RADIUS_ORDER : BlastRadius → Nat
  | .low => 0
  | .medium => 1
  | .high => 2

/-- `chaos_monkey.experiments.base.ExperimentStatus`. -/
inductive ExperimentStatus where
  | pending
  | running
  | completed
  | failed
  | rolled_back
  | skipped
deriving DecidableEq, Repr

/-- The static data of a `ChaosExperiment` variant (its class attributes). -/
structure ChaosExperiment where
  name : String
  description : String := ""
  category : String := ""
  blast_radius : BlastRadius
  reversible : Bool := true

/-- `chaos_monkey.experiments.base.ExperimentResult`.  Timestamps are
abstract ticks (`Nat`); `duration_seconds` is likewise abstract. -/
structure ExperimentResult where
  experiment_name : String
  status : ExperimentStatus
  target : String
  ns : String
  started_at : Nat := 0
  completed_at : Option Nat := none
  duration_seconds : Nat := 0
  error : Option String := none
  rollback_performed : Bool := false
  dry_run : Bool := false
  details : PyDict := []

/-- `chaos_monkey.safety.controls.ValidationResult`. -/
structure ValidationResult where
  approved : Bool
  reason : String
deriving DecidableEq, Repr

/-- `chaos_monkey.config.SafetyConfig`. -/
structure SafetyConfig where
  excluded_namespaces : List String := ["kube-system", "kube-public", "kube-node-lease"]
  max_blast_radius : BlastRadius := .medium
  max_concurrent_experiments : Nat := 1
  dry_run : Bool := false
  auto_rollback : Bool := true
  rollback_timeout_seconds : Nat := 300

/-- One entry of `SafetyController._active_experiments`. -/
structure ActiveEntry where
  name : String
  target : String
  ns : String
deriving DecidableEq, Repr

/-- `SafetyController._active_experiments`. -/
abbrev Ledger := List ActiveEntry

/-- `SafetyController.validate_experiment`: the ordered chain
excluded-namespace → blast-radius ceiling → concurrency ceiling. -/
def validate_experiment (cfg : SafetyConfig) (ledger : Ledger)
    (experiment : ChaosExperiment) (target ns : String) : ValidationResult :=
  if ns ∈ cfg.excluded_namespaces then
    ⟨false, "Namespace '" ++ ns ++ "' is in the exclusion list"⟩
  else if BLAST_RADIUS_ORDER experiment.blast_radius
      > BLAST_RADIUS_ORDER cfg.max_blast_radius then
    ⟨false, "Experiment blast radius '" ++ experiment.blast_radius.value
        ++ "' exceeds maximum allowed '" ++ cfg.max_blast_radius.value ++ "'"⟩
  else if ledger.length ≥ cfg.max_concurrent_experiments then
    ⟨false, "Concurrent experiment limit reached ("
        ++ toString cfg.max_concurrent_experiments ++ ")"⟩
  else ⟨true, "All safety checks passed"⟩

/-- `SafetyController.register_active`: append a `{name, target, namespace}` dict. -/
def register_active (ledger : Ledger) (experiment_name target ns : String) : Ledger :=
  ledger ++ [⟨experiment_name, target, ns⟩]

/-- `SafetyController.unregister_active`: keep only the entries whose name or
target differs (the namespace is not consulted). -/
def unregister_active (ledger : Ledger) (experiment_name target : String) : Ledger :=
  ledger.filter (fun e => !(e.name == experiment_name && e.target == target))

/-- The observable behaviour of one `await experiment.execute(...)` call:
it returns a result or raises with a message. -/
inductive ExecBehavior where
  | ok (result : ExperimentResult)
  | raises (msg : String)

/-- The observable behaviour of one `await experiment.rollback(...)` call under
`asyncio.wait_for`: it returns, raises, or exceeds the timeout. -/
inductive RollbackBehavior where
  | ok
  | raises (msg : String)
  | timesOut
deriving DecidableEq, Repr

/-- Kinds of side effects the engine performs. -/
inductive EvKind where
  | clientCreate
  | registerCall
  | unregisterCall
  | executeCall
  | rollbackCall
deriving DecidableEq, Repr

/-- One recorded side effect.  `ctx` is the context handed to a rollback
call (meaningful only for `rollbackCall`); `after` is the ledger as it
stands once the event has taken effect. -/
structure Event where
  kind : EvKind
  ctx : Option PyDict := none
  after : Ledger

/-- Outcome of `SafetyController.enforce_rollback`: the (never-raising)
result, the ledger afterwards, and the events performed. -/
structure RbOutcome where
  res : Except String Unit
  ledger : Ledger
  trace : List Event

/-- `SafetyController.enforce_rollback`.  When auto-rollback is disabled it
returns at once (a logged no-op), before the `try/finally` — so without
touching the ledger.  Otherwise the rollback call runs under a timeout;
`asyncio.TimeoutError` and every `Exception` are caught, and the `finally`
clause unregisters the experiment. -/
def enforce_rollback (cfg : SafetyConfig) (experiment : ChaosExperiment)
    (target ns : String) (context : Option PyDict) (rb : RollbackBehavior)
    (ledger : Ledger) : RbOutcome :=
  if cfg.auto_rollback = false then
    ⟨.ok (), ledger, []⟩
  else
    let attempt : Except String Unit :=
      match rb with
      | .ok => .ok ()
      | .raises msg => .error msg
      | .timesOut => .error "TimeoutError"
    let l2 := unregister_active ledger experiment.name target
    let evs : List Event :=
      [⟨.rollbackCall, context, ledger⟩, ⟨.unregisterCall, none, l2⟩]
    match attempt with
    | .ok _ => ⟨.ok (), l2, evs⟩
    | .error _ => ⟨.ok (), l2, evs⟩

/-- A plan entry dict: `experiment` and `target` are required keys,
`namespace` defaults to `"default"`, `params` to `{}`. -/
structure PlanEntry where
  experiment : String
  target : String
  ns : Option String := none
  params : PyDict := []

/-- `ExperimentRegistry.get`: lookup of a variant by its declared name. -/
def registry_get (exps : List ChaosExperiment) (name : String) :
    Option ChaosExperiment :=
  exps.find? (fun e => e.name == name)

/-- The environment one `run_one` call runs in: whether `_k8s_client()`
succeeds, how the resolved variant's `execute` and `rollback` behave, and
the clock readings used for the timing fields. -/
structure Env where
  k8sClient : Except String Unit := .ok ()
  execB : ExecBehavior
  rollbackB : RollbackBehavior := .ok
  now : Nat := 0
  elapsed : Nat := 0

/-- Outcome of `ExperimentExecutor.run_one`: the returned result (or the
exception it raised), the ledger afterwards, and the events performed. -/
structure RunOutcome where
  res : Except String ExperimentResult
  ledger : Ledger
  trace : List Event

/-- `ExperimentExecutor.run_one`, translated branch for branch: unknown
name → FAILED; safety rejection → SKIPPED; dry run → COMPLETED echoing the
params; otherwise build the client (outside any `try`: a failure here
propagates), register the ledger slot, run `execute` under
`try/except/finally` — on exception, `enforce_rollback` is awaited with no
context argument and `rolled_back` is true unless that call itself raises;
the `finally` clause unregisters. -/
def run_one (cfg : SafetyConfig) (exps : List ChaosExperiment) (env : Env)
    (ledger : Ledger) (entry : PlanEntry) (d : Bool) : RunOutcome :=
  let exp_name := entry.experiment
  let target := entry.target
  let ns := entry.ns.getD "default"
  let params := entry.params
  match registry_get exps exp_name with
  | none =>
      ⟨.ok { experiment_name := exp_name, status := .failed, target := target,
             ns := ns, started_at := env.now,
             error := some ("Unknown experiment type: " ++ exp_name) },
       ledger, []⟩
  | some experiment =>
      let validation := validate_experiment cfg ledger experiment target ns
      if validation.approved = false then
        ⟨.ok { experiment_name := exp_name, status := .skipped, target := target,
               ns := ns, started_at := env.now,
               error := some ("Safety check failed: " ++ validation.reason) },
         ledger, []⟩
      else if d then
        ⟨.ok { experiment_name := exp_name, status := .completed, target := target,
               ns := ns, started_at := env.now, dry_run := true,
               details := [("params", Val.vmap params),
                           ("message", Val.vstr "Dry run — no changes made")] },
         ledger, []⟩
      else
        match env.k8sClient with
        | .error m => ⟨.error m, ledger, []⟩
        | .ok _ =>
            let l1 := register_active ledger exp_name target ns
            let evs0 : List Event :=
              [⟨.clientCreate, none, ledger⟩, ⟨.registerCall, none, l1⟩]
            match env.execB with
            | .ok result =>
                let lf := unregister_active l1 exp_name target
                ⟨.ok { result with
                         duration_seconds := env.elapsed,
                         completed_at := some env.now },
                 lf,
                 evs0 ++ [⟨.executeCall, none, l1⟩, ⟨.unregisterCall, none, lf⟩]⟩
            | .raises msg =>
                let rb := enforce_rollback cfg experiment target ns none env.rollbackB l1
                let rolled_back :=
                  match rb.res with
                  | .ok _ => true
                  | .error _ => false
                let lf := unregister_active rb.ledger exp_name target
                ⟨.ok { experiment_name := exp_name, status := .failed,
                       target := target, ns := ns, started_at := env.now,
                       duration_seconds := env.elapsed, completed_at := some env.now,
                       error := some msg, rollback_performed := rolled_back },
                 lf,
                 evs0 ++ [⟨.executeCall, none, l1⟩] ++ rb.trace
                      ++ [⟨.unregisterCall, none, lf⟩]⟩

/-- Outcome of `ExperimentExecutor.run_plan`. -/
structure PlanOutcome where
  res : Except String (List ExperimentResult)
  ledger : Ledger
  trace : List Event

/-- `ExperimentExecutor.run_plan`: run each entry in order, append its
result, and stop after the first FAILED result when not in dry-run mode.
An exception from `run_one` propagates (dropping the collected results). -/
def run_plan (cfg : SafetyConfig) (exps : List ChaosExperiment) :
    List (PlanEntry × Env) → Ledger → Bool → PlanOutcome
  | [], ledger, _ => ⟨.ok [], ledger, []⟩
  | (entry, env) :: rest, ledger, d =>
      let one := run_one cfg exps env ledger entry d
      match one.res with
      | .error m => ⟨.error m, one.ledger, one.trace⟩
      | .ok result =>
          if result.status = .failed ∧ d = false then
            ⟨.ok [result], one.ledger, one.trace⟩
          else
            let restOut := run_plan cfg exps rest one.ledger d
            ⟨restOut.res.map (fun rs => result :: rs), restOut.ledger,
             one.trace ++ restOut.trace⟩

/-- The path taken by a variant's `rollback`: the guarded early return
(pure logging, no resource-API interaction, no exception) or the restore
path that reads and mutates the resource API. -/
inductive RbPath where
  | noop
  | restore
deriving DecidableEq, Repr

/-- `ConfigMapMutation.rollback`'s control flow:
`original_data = (context or \x7b\x7d).get("original_data")`; when that is
falsy the call logs a warning and returns, else it patches the ConfigMap. -/
def ConfigMapMutation_rollback (context : Option PyDict) : RbPath :=
  let original_data := pyGet (context.getD []) "original_data"
  if pyTruthy original_data = false then .noop else .restore

/-- `SecretDeletion.rollback`'s control flow: as above with key `"backup"`,
recreating the Secret on the restore path. -/
def SecretDeletion_rollback (context : Option PyDict) : RbPath :=
  let backup := pyGet (context.getD []) "backup"
  if pyTruthy backup = false then .noop else .restore

/-- The action `PodRestart.rollback` performs: it has no guarded early
return — every call patches the deployment scale through the resource
API. -/
inductive PodRestartRb where
  | patchScale (replicas : Val)

/-- `PodRestart.rollback`: unconditionally patches the deployment scale to
`(context or \x7b\x7d).get("original_replicas", 1)` — with a missing
context the scale is set to the guessed default `1`. -/
def PodRestart_rollback (context : Option PyDict) : PodRestartRb :=
  .patchScale ((pyGet (context.getD []) "original_replicas").getD (.vint 1))

/-- The action the node-level rollbacks perform: they ignore the context
entirely — every call patches the node's `unschedulable` field through the
resource API. -/
inductive NodeRb where
  | patchUnschedulable (value : Bool)
deriving DecidableEq, Repr

/-- `NodeDrain.rollback`: unconditionally patches the node with
`unschedulable = false`. -/
def NodeDrain_rollback (context : Option PyDict) : NodeRb :=
  .patchUnschedulable false

/-- `NodeCordon.rollback`: unconditionally patches the node with
`unschedulable = false`. -/
def NodeCordon_rollback (context : Option PyDict) : NodeRb :=
  .patchUnschedulable false

/-- The action the tc-based network rollbacks perform: they have no
guarded early return — every call reads the pod and execs
`tc qdisc del` on the chosen interface, with nothing catching an
exception from either API call. -/
inductive NetRb where
  | tcQdiscDel (iface : Val)

/-- `LatencyInjection.rollback`: unconditionally execs `tc qdisc del` on
`(context or \x7b\x7d).get("interface", "eth0")`. -/
def LatencyInjection_rollback (context : Option PyDict) : NetRb :=
  .tcQdiscDel ((pyGet (context.getD []) "interface").getD (.vstr "eth0"))

/-- `PacketLoss.rollback`: unconditionally execs `tc qdisc del` on
`(context or \x7b\x7d).get("interface", "eth0")`. -/
def PacketLoss_rollback (context : Option PyDict) : NetRb :=
  .tcQdiscDel ((pyGet (context.getD []) "interface").getD (.vstr "eth0"))

/-- The four ledger-touching operations a sequential caller can issue. -/
inductive LOp where
  | validateOp (experiment : ChaosExperiment) (target ns : String)
  | registerOp (name target ns : String)
  | unregisterOp (name target : String)
  | runOneOp (env : Env) (entry : PlanEntry) (d : Bool)

/-- Effect of one operation on the ledger (`validate_experiment` is read-only). -/
def applyOp (cfg : SafetyConfig) (exps : List ChaosExperiment)
    (ledger : Ledger) : LOp → Ledger
  | .validateOp _ _ _ => ledger
  | .registerOp n t s => register_active ledger n t s
  | .unregisterOp n t => unregister_active ledger n t
  | .runOneOp env e d => (run_one cfg exps env ledger e d).ledger

/-- Ledger reached by a sequence of operations. -/
def applyOps (cfg : SafetyConfig) (exps : List ChaosExperiment)
    (ledger : Ledger) (ops : List LOp) : Ledger :=
  ops.foldl (applyOp cfg exps) ledger

/-- The variants of `config_chaos` and `pod` relevant to the examples. -/
def pod_kill : ChaosExperiment :=
  { name := "pod-kill", category := "pod", blast_radius := .low }

def ConfigMapMutation_exp : ChaosExperiment :=
  { name := "configmap-mutation", category := "config", blast_radius := .medium }

def SecretDeletion_exp : ChaosExperiment :=
  { name := "secret-deletion", category := "config", blast_radius := .high }

/-! ### Concrete fixtures -/

/-- The default `SafetyConfig` (the field defaults of `chaos_monkey.config`). -/
def cfgD : SafetyConfig := {}

/-- Default config with ceiling `"low"`. -/
def cfgLow : SafetyConfig := { max_blast_radius := .low }

/-- Default config with auto-rollback disabled. -/
def cfgNoRollback : SafetyConfig := { auto_rollback := false }

/-- A registry holding the three modelled variants. -/
def exps0 : List ChaosExperiment :=
  [pod_kill, ConfigMapMutation_exp, SecretDeletion_exp]

/-- The spec's example entry. -/
def entry0 : PlanEntry :=
  { experiment := "pod-kill", target := "web-7f", ns := some "prod" }

/-- An entry naming no registered experiment. -/
def entryUnknown : PlanEntry := { experiment := "nope", target := "t" }

/-- An environment in which `execute` raises `"boom"`. -/
def envRaise : Env := { execB := .raises "boom" }

/-- An environment in which `execute` returns a completed result. -/
def envOk : Env :=
  { execB := .ok { experiment_name := "pod-kill", status := .completed,
                   target := "web-7f", ns := "prod" } }

/-- An environment in which `_k8s_client()` raises. -/
def envClientFail : Env := { execB := .raises "boom", k8sClient := .error "cfgfail" }

/-! ### Helper lemmas -/

theorem validate_approved_iff (cfg : SafetyConfig) (ledger : Ledger)
    (experiment : ChaosExperiment) (target ns : String) :
    (validate_experiment cfg ledger experiment target ns).approved = true ↔
      (ns ∉ cfg.excluded_namespaces ∧
       BLAST_RADIUS_ORDER experiment.blast_radius
         ≤ BLAST_RADIUS_ORDER cfg.max_blast_radius ∧
       ledger.length < cfg.max_concurrent_experiments) := by
  unfold validate_experiment
  split
  · simp_all
  · split
    · simp_all
    · split
      · simp_all
      · simp_all

theorem approved_ledger_lt (cfg : SafetyConfig) (ledger : Ledger)
    (experiment : ChaosExperiment) (target ns : String)
    (h : (validate_experiment cfg ledger experiment target ns).approved = true) :
    ledger.length < cfg.max_concurrent_experiments :=
  ((validate_approved_iff cfg ledger experiment target ns).mp h).2.2

theorem unregister_length_le (ledger : Ledger) (n t : String) :
    (unregister_active ledger n t).length ≤ ledger.length :=
  List.length_filter_le _ _

theorem register_length (ledger : Ledger) (n t s : String) :
    (register_active ledger n t s).length = ledger.length + 1 := by
  simp [register_active]

theorem enforce_rollback_never_raises (cfg : SafetyConfig)
    (experiment : ChaosExperiment) (target ns : String) (context : Option PyDict)
    (rb : RollbackBehavior) (ledger : Ledger) :
    (enforce_rollback cfg experiment target ns context rb ledger).res = .ok () := by
  unfold enforce_rollback
  split
  · rfl
  · cases rb <;> rfl

theorem enforce_rollback_disabled (cfg : SafetyConfig)
    (experiment : ChaosExperiment) (target ns : String) (context : Option PyDict)
    (rb : RollbackBehavior) (ledger : Ledger) (h : cfg.auto_rollback = false) :
    enforce_rollback cfg experiment target ns context rb ledger =
      ⟨.ok (), ledger, []⟩ := by
  unfold enforce_rollback
  simp [h]

theorem enforce_rollback_enabled (cfg : SafetyConfig)
    (experiment : ChaosExperiment) (target ns : String) (context : Option PyDict)
    (rb : RollbackBehavior) (ledger : Ledger) (h : cfg.auto_rollback = true) :
    enforce_rollback cfg experiment target ns context rb ledger =
      ⟨.ok (), unregister_active ledger experiment.name target,
       [⟨.rollbackCall, context, ledger⟩,
        ⟨.unregisterCall, none, unregister_active ledger experiment.name target⟩]⟩ := by
  unfold enforce_rollback
  cases rb <;> simp [h]

theorem run_one_unknown (cfg : SafetyConfig) (exps : List ChaosExperiment)
    (env : Env) (ledger : Ledger) (entry : PlanEntry) (d : Bool)
    (h : registry_get exps entry.experiment = none) :
    run_one cfg exps env ledger entry d =
      ⟨.ok { experiment_name := entry.experiment, status := .failed,
             target := entry.target, ns := entry.ns.getD "default",
             started_at := env.now,
             error := some ("Unknown experiment type: " ++ entry.experiment) },
       ledger, []⟩ := by
  unfold run_one
  simp [h]

theorem run_one_rejected (cfg : SafetyConfig) (exps : List ChaosExperiment)
    (env : Env) (ledger : Ledger) (entry : PlanEntry) (d : Bool)
    (e : ChaosExperiment) (h : registry_get exps entry.experiment = some e)
    (h2 : (validate_experiment cfg ledger e entry.target
            (entry.ns.getD "default")).approved = false) :
    run_one cfg exps env ledger entry d =
      ⟨.ok { experiment_name := entry.experiment, status := .skipped,
             target := entry.target, ns := entry.ns.getD "default",
             started_at := env.now,
             error := some ("Safety check failed: "
               ++ (validate_experiment cfg ledger e entry.target
                     (entry.ns.getD "default")).reason) },
       ledger, []⟩ := by
  unfold run_one
  simp [h, h2]

theorem run_one_dry (cfg : SafetyConfig) (exps : List ChaosExperiment)
    (env : Env) (ledger : Ledger) (entry : PlanEntry)
    (e : ChaosExperiment) (h : registry_get exps entry.experiment = some e)
    (h2 : (validate_experiment cfg ledger e entry.target
            (entry.ns.getD "default")).approved = true) :
    run_one cfg exps env ledger entry true =
      ⟨.ok { experiment_name := entry.experiment, status := .completed,
             target := entry.target, ns := entry.ns.getD "default",
             started_at := env.now, dry_run := true,
             details := [("params", Val.vmap entry.params),
                         ("message", Val.vstr "Dry run — no changes made")] },
       ledger, []⟩ := by
  unfold run_one
  simp [h, h2]

theorem run_one_client_raises (cfg : SafetyConfig) (exps : List ChaosExperiment)
    (env : Env) (ledger : Ledger) (entry : PlanEntry) (m : String)
    (e : ChaosExperiment) (h : registry_get exps entry.experiment = some e)
    (h2 : (validate_experiment cfg ledger e entry.target
            (entry.ns.getD "default")).approved = true)
    (hc : env.k8sClient = .error m) :
    run_one cfg exps env ledger entry false = ⟨.error m, ledger, []⟩ := by
  unfold run_one
  simp [h, h2, hc]

theorem run_one_exec_ok (cfg : SafetyConfig) (exps : List ChaosExperiment)
    (env : Env) (ledger : Ledger) (entry : PlanEntry) (result : ExperimentResult)
    (e : ChaosExperiment) (h : registry_get exps entry.experiment = some e)
    (h2 : (validate_experiment cfg ledger e entry.target
            (entry.ns.getD "default")).approved = true)
    (hc : env.k8sClient = .ok ()) (hx : env.execB = .ok result) :
    run_one cfg exps env ledger entry false =
      ⟨.ok { result with
               duration_seconds := env.elapsed,
               completed_at := some env.now },
       unregister_active
         (register_active ledger entry.experiment entry.target (entry.ns.getD "default"))
         entry.experiment entry.target,
       [⟨.clientCreate, none, ledger⟩,
        ⟨.registerCall, none,
         register_active ledger entry.experiment entry.target (entry.ns.getD "default")⟩,
        ⟨.executeCall, none,
         register_active ledger entry.experiment entry.target (entry.ns.getD "default")⟩,
        ⟨.unregisterCall, none,
         unregister_active
           (register_active ledger entry.experiment entry.target (entry.ns.getD "default"))
           entry.experiment entry.target⟩]⟩ := by
  unfold run_one
  simp [h, h2, hc, hx]

theorem run_one_exec_raises (cfg : SafetyConfig) (exps : List ChaosExperiment)
    (env : Env) (ledger : Ledger) (entry : PlanEntry) (msg : String)
    (e : ChaosExperiment) (h : registry_get exps entry.experiment = some e)
    (h2 : (validate_experiment cfg ledger e entry.target
            (entry.ns.getD "default")).approved = true)
    (hc : env.k8sClient = .ok ()) (hx : env.execB = .raises msg) :
    run_one cfg exps env ledger entry false =
      ⟨.ok { experiment_name := entry.experiment, status := .failed,
             target := entry.target, ns := entry.ns.getD "default",
             started_at := env.now, duration_seconds := env.elapsed,
             completed_at := some env.now, error := some msg,
             rollback_performed := true },
       unregister_active
         (enforce_rollback cfg e entry.target (entry.ns.getD "default") none env.rollbackB
           (register_active ledger entry.experiment entry.target
             (entry.ns.getD "default"))).ledger
         entry.experiment entry.target,
       [⟨.clientCreate, none, ledger⟩,
        ⟨.registerCall, none,
         register_active ledger entry.experiment entry.target (entry.ns.getD "default")⟩,
        ⟨.executeCall, none,
         register_active ledger entry.experiment entry.target (entry.ns.getD "default")⟩]
       ++ (enforce_rollback cfg e entry.target (entry.ns.getD "default") none env.rollbackB
             (register_active ledger entry.experiment entry.target
               (entry.ns.getD "default"))).trace
       ++ [⟨.unregisterCall, none,
            unregister_active
              (enforce_rollback cfg e entry.target (entry.ns.getD "default") none
                env.rollbackB
                (register_active ledger entry.experiment entry.target
                  (entry.ns.getD "default"))).ledger
              entry.experiment entry.target⟩]⟩ := by
  unfold run_one
  have hres := enforce_rollback_never_raises cfg e entry.target (entry.ns.getD "default")
    none env.rollbackB
    (register_active ledger entry.experiment entry.target (entry.ns.getD "default"))
  simp [h, h2, hc, hx, hres]

theorem run_one_dry_pure (cfg : SafetyConfig) (exps : List ChaosExperiment)
    (env : Env) (ledger : Ledger) (entry : PlanEntry) :
    (∃ r, (run_one cfg exps env ledger entry true).res = .ok r) ∧
    (run_one cfg exps env ledger entry true).trace = [] ∧
    (run_one cfg exps env ledger entry true).ledger = ledger := by
  cases h : registry_get exps entry.experiment with
  | none =>
      rw [run_one_unknown cfg exps env ledger entry true h]
      exact ⟨⟨_, rfl⟩, rfl, rfl⟩
  | some e =>
      cases h2 : (validate_experiment cfg ledger e entry.target
          (entry.ns.getD "default")).approved with
      | false =>
          rw [run_one_rejected cfg exps env ledger entry true e h h2]
          exact ⟨⟨_, rfl⟩, rfl, rfl⟩
      | true =>
          rw [run_one_dry cfg exps env ledger entry e h h2]
          exact ⟨⟨_, rfl⟩, rfl, rfl⟩

theorem run_plan_cons (cfg : SafetyConfig) (exps : List ChaosExperiment)
    (entry : PlanEntry) (env : Env) (rest : List (PlanEntry × Env))
    (ledger : Ledger) (d : Bool) :
    run_plan cfg exps ((entry, env) :: rest) ledger d =
      match (run_one cfg exps env ledger entry d).res with
      | .error m =>
          ⟨.error m, (run_one cfg exps env ledger entry d).ledger,
           (run_one cfg exps env ledger entry d).trace⟩
      | .ok result =>
          if result.status = .failed ∧ d = false then
            ⟨.ok [result], (run_one cfg exps env ledger entry d).ledger,
             (run_one cfg exps env ledger entry d).trace⟩
          else
            ⟨(run_plan cfg exps rest (run_one cfg exps env ledger entry d).ledger d).res.map
               (fun rs => result :: rs),
             (run_plan cfg exps rest (run_one cfg exps env ledger entry d).ledger d).ledger,
             (run_one cfg exps env ledger entry d).trace
               ++ (run_plan cfg exps rest
                     (run_one cfg exps env ledger entry d).ledger d).trace⟩ :=
  rfl

theorem run_plan_dry (cfg : SafetyConfig) (exps : List ChaosExperiment) :
    ∀ (pairs : List (PlanEntry × Env)) (ledger : Ledger),
      ∃ rs, run_plan cfg exps pairs ledger true = ⟨.ok rs, ledger, []⟩ ∧
        rs.length = pairs.length
  | [], ledger => ⟨[], rfl, rfl⟩
  | (entry, env) :: rest, ledger => by
      obtain ⟨⟨r, hr⟩, htr, hl⟩ := run_one_dry_pure cfg exps env ledger entry
      obtain ⟨rs', hrs', hlen⟩ := run_plan_dry cfg exps rest ledger
      refine ⟨r :: rs', ?_, by simp [hlen]⟩
      rw [run_plan_cons, hr]
      simp [hl, htr, hrs', Except.map]

theorem run_plan_stops (cfg : SafetyConfig) (exps : List ChaosExperiment)
    (entry : PlanEntry) (env : Env) (rest : List (PlanEntry × Env))
    (ledger : Ledger) (rA : ExperimentResult)
    (h1 : (run_one cfg exps env ledger entry false).res = .ok rA)
    (h2 : rA.status = .failed) :
    run_plan cfg exps ((entry, env) :: rest) ledger false =
      ⟨.ok [rA], (run_one cfg exps env ledger entry false).ledger,
       (run_one cfg exps env ledger entry false).trace⟩ := by
  unfold run_plan
  simp [h1, h2]

theorem run_plan_failfast (cfg : SafetyConfig) (exps : List ChaosExperiment) :
    ∀ (pairs : List (PlanEntry × Env)) (ledger : Ledger) (rs : List ExperimentResult),
      (run_plan cfg exps pairs ledger false).res = .ok rs →
      ∀ r ∈ rs.dropLast, r.status ≠ .failed
  | [], ledger, rs => by
      intro h
      unfold run_plan at h
      cases h
      simp
  | (entry, env) :: rest, ledger, rs => by
      intro h r hr
      rw [run_plan_cons] at h
      cases hro : (run_one cfg exps env ledger entry false).res with
      | error m => rw [hro] at h; cases h
      | ok result =>
          rw [hro] at h
          dsimp only at h
          by_cases hf : result.status = .failed
          · rw [if_pos ⟨hf, rfl⟩] at h
            cases h
            simp_all
          · rw [if_neg (by simp [hf])] at h
            cases hrec : (run_plan cfg exps rest
                (run_one cfg exps env ledger entry false).ledger false).res with
            | error m => simp [hrec, Except.map] at h
            | ok rs' =>
                simp only [hrec, Except.map] at h
                cases h
                cases rs' with
                | nil => simp_all
                | cons b bs =>
                    rw [List.dropLast_cons₂] at hr
                    rcases List.mem_cons.mp hr with h1 | h2
                    · exact h1 ▸ hf
                    · exact run_plan_failfast cfg exps rest _ _ hrec r h2

theorem run_plan_complete (cfg : SafetyConfig) (exps : List ChaosExperiment) :
    ∀ (pairs : List (PlanEntry × Env)) (ledger : Ledger) (rs : List ExperimentResult),
      (run_plan cfg exps pairs ledger false).res = .ok rs →
      (∀ r ∈ rs, r.status ≠ .failed) → rs.length = pairs.length
  | [], ledger, rs => by
      intro h _
      unfold run_plan at h
      dsimp only at h
      cases h
      rfl
  | (entry, env) :: rest, ledger, rs => by
      intro h hall
      rw [run_plan_cons] at h
      cases hro : (run_one cfg exps env ledger entry false).res with
      | error m => rw [hro] at h; cases h
      | ok result =>
          rw [hro] at h
          dsimp only at h
          by_cases hf : result.status = .failed
          · exact absurd hf (hall result (by rw [if_pos ⟨hf, rfl⟩] at h; cases h; simp))
          · rw [if_neg (by simp [hf])] at h
            cases hrec : (run_plan cfg exps rest
                (run_one cfg exps env ledger entry false).ledger false).res with
            | error m => simp [hrec, Except.map] at h
            | ok rs' =>
                simp only [hrec, Except.map] at h
                cases h
                have hlen := run_plan_complete cfg exps rest _ rs' hrec
                  (fun r hr => hall r (by simp [hr]))
                simp [hlen]

theorem run_plan_head (cfg : SafetyConfig) (exps : List ChaosExperiment)
    (entry : PlanEntry) (env : Env) (rest : List (PlanEntry × Env))
    (ledger : Ledger) (d : Bool) (rs : List ExperimentResult)
    (h : (run_plan cfg exps ((entry, env) :: rest) ledger d).res = .ok rs) :
    ∃ r1 rs', rs = r1 :: rs' ∧ (run_one cfg exps env ledger entry d).res = .ok r1 := by
  rw [run_plan_cons] at h
  cases hro : (run_one cfg exps env ledger entry d).res with
  | error m => rw [hro] at h; cases h
  | ok result =>
      rw [hro] at h
      dsimp only at h
      by_cases hc : result.status = .failed ∧ d = false
      · rw [if_pos hc] at h
        cases h
        exact ⟨result, [], rfl, rfl⟩
      · rw [if_neg hc] at h
        cases hrec : (run_plan cfg exps rest
            (run_one cfg exps env ledger entry d).ledger d).res with
        | error m => simp [hrec, Except.map] at h
        | ok rs' =>
            simp only [hrec, Except.map] at h
            cases h
            exact ⟨result, rs', rfl, rfl⟩

theorem unregister_not_mem (l : Ledger) (n t : String) :
    ∀ e ∈ unregister_active l n t, ¬(e.name = n ∧ e.target = t) := by
  intro e he hc
  simp [unregister_active, List.mem_filter, hc.1, hc.2] at he

theorem unregister_keeps (l : Ledger) (n t : String) :
    ∀ e ∈ l, ¬(e.name = n ∧ e.target = t) → e ∈ unregister_active l n t := by
  intro e he hne
  simp [unregister_active, List.mem_filter, he]
  exact not_and_or.mp hne

theorem unregister_idem (l : Ledger) (n t : String) :
    unregister_active (unregister_active l n t) n t = unregister_active l n t := by
  simp [unregister_active, List.filter_filter]

theorem unregister_register_pair (l : Ledger) (n t s1 s2 : String) :
    unregister_active (register_active (register_active l n t s1) n t s2) n t =
      unregister_active l n t := by
  simp [register_active, unregister_active, List.filter_append]

theorem enforce_rollback_ledger_le (cfg : SafetyConfig) (e : ChaosExperiment)
    (t ns : String) (c : Option PyDict) (rb : RollbackBehavior) (l : Ledger) :
    (enforce_rollback cfg e t ns c rb l).ledger.length ≤ l.length := by
  cases hac : cfg.auto_rollback with
  | false =>
      rw [enforce_rollback_disabled cfg e t ns c rb l hac]
  | true =>
      rw [enforce_rollback_enabled cfg e t ns c rb l hac]
      exact unregister_length_le _ _ _

theorem enforce_rollback_trace_after (cfg : SafetyConfig) (e : ChaosExperiment)
    (t ns : String) (c : Option PyDict) (rb : RollbackBehavior) (l : Ledger) :
    ∀ ev ∈ (enforce_rollback cfg e t ns c rb l).trace, ev.after.length ≤ l.length := by
  cases hac : cfg.auto_rollback with
  | false =>
      rw [enforce_rollback_disabled cfg e t ns c rb l hac]
      simp
  | true =>
      rw [enforce_rollback_enabled cfg e t ns c rb l hac]
      intro ev hev
      simp only [List.mem_cons, List.not_mem_nil, or_false] at hev
      rcases hev with rfl | rfl
      · exact le_refl _
      · exact unregister_length_le _ _ _

theorem enforce_rollback_ctx (cfg : SafetyConfig) (e : ChaosExperiment)
    (t ns : String) (rb : RollbackBehavior) (l : Ledger) :
    ∀ ev ∈ (enforce_rollback cfg e t ns none rb l).trace, ev.ctx = none := by
  cases hac : cfg.auto_rollback with
  | false =>
      rw [enforce_rollback_disabled cfg e t ns none rb l hac]
      simp
  | true =>
      rw [enforce_rollback_enabled cfg e t ns none rb l hac]
      intro ev hev
      simp only [List.mem_cons, List.not_mem_nil, or_false] at hev
      rcases hev with rfl | rfl <;> rfl

theorem enforce_rollback_kinds (cfg : SafetyConfig) (e : ChaosExperiment)
    (t ns : String) (c : Option PyDict) (rb : RollbackBehavior) (l : Ledger) :
    (enforce_rollback cfg e t ns c rb l).trace.map Event.kind = [] ∨
    (enforce_rollback cfg e t ns c rb l).trace.map Event.kind =
      [.rollbackCall, .unregisterCall] := by
  cases hac : cfg.auto_rollback with
  | false =>
      left
      rw [enforce_rollback_disabled cfg e t ns c rb l hac]
      rfl
  | true =>
      right
      rw [enforce_rollback_enabled cfg e t ns c rb l hac]
      rfl

theorem run_one_ledger_bound (cfg : SafetyConfig) (exps : List ChaosExperiment)
    (env : Env) (ledger : Ledger) (entry : PlanEntry) (d : Bool)
    (hle : ledger.length ≤ cfg.max_concurrent_experiments) :
    (run_one cfg exps env ledger entry d).ledger.length
      ≤ cfg.max_concurrent_experiments ∧
    ∀ ev ∈ (run_one cfg exps env ledger entry d).trace,
      ev.after.length ≤ cfg.max_concurrent_experiments := by
  cases h : registry_get exps entry.experiment with
  | none =>
      rw [run_one_unknown cfg exps env ledger entry d h]
      exact ⟨hle, by simp⟩
  | some e =>
      cases h2 : (validate_experiment cfg ledger e entry.target
          (entry.ns.getD "default")).approved with
      | false =>
          rw [run_one_rejected cfg exps env ledger entry d e h h2]
          exact ⟨hle, by simp⟩
      | true =>
          have hlt := approved_ledger_lt cfg ledger e entry.target
            (entry.ns.getD "default") h2
          have hl1 : (register_active ledger entry.experiment entry.target
              (entry.ns.getD "default")).length ≤ cfg.max_concurrent_experiments := by
            rw [register_length]
            omega
          cases d with
          | true =>
              rw [run_one_dry cfg exps env ledger entry e h h2]
              exact ⟨hle, by simp⟩
          | false =>
              cases hc : env.k8sClient with
              | error m =>
                  rw [run_one_client_raises cfg exps env ledger entry m e h h2 hc]
                  exact ⟨hle, by simp⟩
              | ok u =>
                  cases u
                  cases hx : env.execB with
                  | ok result =>
                      rw [run_one_exec_ok cfg exps env ledger entry result e h h2 hc hx]
                      refine ⟨le_trans (unregister_length_le _ _ _) hl1, ?_⟩
                      intro ev hev
                      simp only [List.mem_cons, List.not_mem_nil, or_false] at hev
                      rcases hev with rfl | rfl | rfl | rfl
                      · exact hle
                      · exact hl1
                      · exact hl1
                      · exact le_trans (unregister_length_le _ _ _) hl1
                  | raises msg =>
                      rw [run_one_exec_raises cfg exps env ledger entry msg e h h2 hc hx]
                      have hrb := enforce_rollback_ledger_le cfg e entry.target
                        (entry.ns.getD "default") none env.rollbackB
                        (register_active ledger entry.experiment entry.target
                          (entry.ns.getD "default"))
                      have hrbt := enforce_rollback_trace_after cfg e entry.target
                        (entry.ns.getD "default") none env.rollbackB
                        (register_active ledger entry.experiment entry.target
                          (entry.ns.getD "default"))
                      refine ⟨le_trans (unregister_length_le _ _ _) (le_trans hrb hl1), ?_⟩
                      intro ev hev
                      simp only [List.append_assoc, List.mem_append, List.mem_cons,
                        List.not_mem_nil, or_false] at hev
                      rcases hev with (rfl | rfl | rfl) | hev | rfl
                      · exact hle
                      · exact hl1
                      · exact hl1
                      · exact le_trans (hrbt ev hev) hl1
                      · exact le_trans (unregister_length_le _ _ _) (le_trans hrb hl1)

theorem run_one_ctx_none (cfg : SafetyConfig) (exps : List ChaosExperiment)
    (env : Env) (ledger : Ledger) (entry : PlanEntry) (d : Bool) :
    ∀ ev ∈ (run_one cfg exps env ledger entry d).trace, ev.ctx = none := by
  cases h : registry_get exps entry.experiment with
  | none =>
      rw [run_one_unknown cfg exps env ledger entry d h]
      simp
  | some e =>
      cases h2 : (validate_experiment cfg ledger e entry.target
          (entry.ns.getD "default")).approved with
      | false =>
          rw [run_one_rejected cfg exps env ledger entry d e h h2]
          simp
      | true =>
          cases d with
          | true =>
              rw [run_one_dry cfg exps env ledger entry e h h2]
              simp
          | false =>
              cases hc : env.k8sClient with
              | error m =>
                  rw [run_one_client_raises cfg exps env ledger entry m e h h2 hc]
                  simp
              | ok u =>
                  cases u
                  cases hx : env.execB with
                  | ok result =>
                      rw [run_one_exec_ok cfg exps env ledger entry result e h h2 hc hx]
                      intro ev hev
                      simp only [List.mem_cons, List.not_mem_nil, or_false] at hev
                      rcases hev with rfl | rfl | rfl | rfl <;> rfl
                  | raises msg =>
                      rw [run_one_exec_raises cfg exps env ledger entry msg e h h2 hc hx]
                      have hrbc := enforce_rollback_ctx cfg e entry.target
                        (entry.ns.getD "default") env.rollbackB
                        (register_active ledger entry.experiment entry.target
                          (entry.ns.getD "default"))
                      intro ev hev
                      simp only [List.append_assoc, List.mem_append, List.mem_cons,
                        List.not_mem_nil, or_false] at hev
                      rcases hev with (rfl | rfl | rfl) | hev | rfl
                      · rfl
                      · rfl
                      · rfl
                      · exact hrbc ev hev
                      · rfl

theorem run_one_register_discipline (cfg : SafetyConfig)
    (exps : List ChaosExperiment) (env : Env) (ledger : Ledger)
    (entry : PlanEntry) (d : Bool) :
    (((run_one cfg exps env ledger entry d).trace.map Event.kind).count
        .registerCall ≤ 1) ∧
    (.registerCall ∈ (run_one cfg exps env ledger entry d).trace.map Event.kind →
      ((run_one cfg exps env ledger entry d).trace.map Event.kind).getLast?
          = some .unregisterCall ∧
      ∀ e ∈ (run_one cfg exps env ledger entry d).ledger,
        ¬(e.name = entry.experiment ∧ e.target = entry.target)) := by
  cases h : registry_get exps entry.experiment with
  | none =>
      rw [run_one_unknown cfg exps env ledger entry d h]
      exact ⟨by simp [List.count_cons], by intro hmem; simp at hmem⟩
  | some e =>
      cases h2 : (validate_experiment cfg ledger e entry.target
          (entry.ns.getD "default")).approved with
      | false =>
          rw [run_one_rejected cfg exps env ledger entry d e h h2]
          exact ⟨by simp [List.count_cons], by intro hmem; simp at hmem⟩
      | true =>
          cases d with
          | true =>
              rw [run_one_dry cfg exps env ledger entry e h h2]
              exact ⟨by simp [List.count_cons], by intro hmem; simp at hmem⟩
          | false =>
              cases hc : env.k8sClient with
              | error m =>
                  rw [run_one_client_raises cfg exps env ledger entry m e h h2 hc]
                  exact ⟨by simp [List.count_cons], by intro hmem; simp at hmem⟩
              | ok u =>
                  cases u
                  cases hx : env.execB with
                  | ok result =>
                      rw [run_one_exec_ok cfg exps env ledger entry result e h h2 hc hx]
                      refine ⟨by simp [List.count_cons], fun _ => ⟨by simp, ?_⟩⟩
                      exact unregister_not_mem _ _ _
                  | raises msg =>
                      rw [run_one_exec_raises cfg exps env ledger entry msg e h h2 hc hx]
                      rcases enforce_rollback_kinds cfg e entry.target
                          (entry.ns.getD "default") none env.rollbackB
                          (register_active ledger entry.experiment entry.target
                            (entry.ns.getD "default")) with hk | hk
                      · refine ⟨?_, fun _ => ⟨?_, unregister_not_mem _ _ _⟩⟩
                        · simp [List.map_append, hk, List.count_cons, List.count_append]
                        · simp [List.map_append, hk]
                      · refine ⟨?_, fun _ => ⟨?_, unregister_not_mem _ _ _⟩⟩
                        · simp [List.map_append, hk, List.count_cons, List.count_append]
                        · simp [List.map_append, hk]

theorem applyOps_no_register_bound (cfg : SafetyConfig) (exps : List ChaosExperiment) :
    ∀ (ops : List LOp) (ledger : Ledger),
      ledger.length ≤ cfg.max_concurrent_experiments →
      (∀ op ∈ ops, ∀ n t s, op ≠ .registerOp n t s) →
      (applyOps cfg exps ledger ops).length ≤ cfg.max_concurrent_experiments
  | [], _ => fun h _ => h
  | op :: ops, ledger => fun h hno => by
      have h1 : (applyOp cfg exps ledger op).length
          ≤ cfg.max_concurrent_experiments := by
        cases op with
        | validateOp e t n => exact h
        | registerOp n t s => exact absurd rfl (hno _ (List.mem_cons_self _ _) n t s)
        | unregisterOp n t => exact le_trans (unregister_length_le _ _ _) h
        | runOneOp env e d => exact (run_one_ledger_bound cfg exps env ledger e d h).1
      have h2 := applyOps_no_register_bound cfg exps ops (applyOp cfg exps ledger op) h1
        (fun o ho => hno o (List.mem_cons_of_mem _ ho))
      simpa [applyOps, List.foldl_cons] using h2

/-! ### Claim theorems -/

/-- An entry naming the HIGH-blast-radius secret-deletion variant. -/
def entrySecret : PlanEntry :=
  { experiment := "secret-deletion", target := "web-7f", ns := some "prod" }

/-- The record `run_one` returns when `execute` raises `"boom"` for `entry0`
under the default config, starting from an empty ledger. -/
def failedResult0 : ExperimentResult :=
  { experiment_name := "pod-kill", status := .failed, target := "web-7f",
    ns := "prod", completed_at := some 0, error := some "boom",
    rollback_performed := true }

/-- C1.  The claim says `rollback_performed` is true only when auto-rollback
is enabled and the rollback call succeeded, with `enforce_rollback`'s boolean
success feeding the flag.  The code contradicts this: `enforce_rollback`
returns `None` and absorbs every failure, so `run_one`'s
`rolled_back = True` assignment is reached whenever `execute` raises — here
with auto-rollback disabled, the trace shows the rollback was never even
invoked (no `rollbackCall` event), yet the returned record carries
`rollback_performed = true`. -/
theorem C1_rollback_flag_code_bug :
    cfgNoRollback.auto_rollback = false ∧
    (run_one cfgNoRollback exps0 envRaise [] entry0 false).res =
      .ok { experiment_name := "pod-kill", status := .failed, target := "web-7f",
            ns := "prod", completed_at := some 0, error := some "boom",
            rollback_performed := true } ∧
    (run_one cfgNoRollback exps0 envRaise [] entry0 false).trace.map Event.kind =
      [.clientCreate, .registerCall, .executeCall, .unregisterCall] :=
  ⟨rfl, rfl, rfl⟩

/-- C2 counterexample.  `_k8s_client()` is called outside the `try` block of
`run_one`; when the client construction raises, `run_one` raises to its
caller instead of returning an `ExperimentResult`. -/
theorem C2_counterexample_client_raises :
    (run_one cfgD exps0 envClientFail [] entry0 false).res = .error "cfgfail" :=
  rfl

/-- C2 (amended).  Provided the resource-API client construction succeeds,
`run_one` never raises: every failure class — unknown name, safety
rejection, execution failure, rollback failure or timeout — is returned
solely as an `ExperimentResult`. -/
theorem C2_run_one_never_raises :
    ∀ (cfg : SafetyConfig) (exps : List ChaosExperiment) (env : Env)
      (ledger : Ledger) (entry : PlanEntry) (d : Bool),
      env.k8sClient = .ok () →
      ∃ r, (run_one cfg exps env ledger entry d).res = .ok r := by
  intro cfg exps env ledger entry d hcl
  cases h : registry_get exps entry.experiment with
  | none =>
      rw [run_one_unknown cfg exps env ledger entry d h]
      exact ⟨_, rfl⟩
  | some e =>
      cases h2 : (validate_experiment cfg ledger e entry.target
          (entry.ns.getD "default")).approved with
      | false =>
          rw [run_one_rejected cfg exps env ledger entry d e h h2]
          exact ⟨_, rfl⟩
      | true =>
          cases d with
          | true =>
              rw [run_one_dry cfg exps env ledger entry e h h2]
              exact ⟨_, rfl⟩
          | false =>
              cases hx : env.execB with
              | ok result =>
                  rw [run_one_exec_ok cfg exps env ledger entry result e h h2 hcl hx]
                  exact ⟨_, rfl⟩
              | raises msg =>
                  rw [run_one_exec_raises cfg exps env ledger entry msg e h h2 hcl hx]
                  exact ⟨_, rfl⟩

/-- C2 witness: a concrete run with a working client returns a result. -/
theorem C2_witness :
    envOk.k8sClient = .ok () ∧
    ∃ r, (run_one cfgD exps0 envOk [] entry0 false).res = .ok r :=
  ⟨rfl, C2_run_one_never_raises cfgD exps0 envOk [] entry0 false rfl⟩

/-- C3 counterexample.  Two facts refute the claim as stated: (a) a
sequence of two bare `register_active` operations reaches a ledger of size
2 under a ceiling of 1 — `register_active` itself performs no bound check;
(b) on the execute-raises path with auto-rollback enabled,
`unregister_active` is called twice for the single successful registration
(once inside `enforce_rollback`'s `finally`, once in `run_one`'s
`finally`), not exactly once. -/
theorem C3_counterexample :
    ((applyOps cfgD exps0 []
        [.registerOp "a" "t" "d", .registerOp "b" "t" "d"]).length = 2 ∧
      cfgD.max_concurrent_experiments = 1) ∧
    ((run_one cfgD exps0 envRaise [] entry0 false).trace.map Event.kind).count
        .unregisterCall = 2 ∧
    ((run_one cfgD exps0 envRaise [] entry0 false).trace.map Event.kind).count
        .registerCall = 1 :=
  ⟨⟨rfl, rfl⟩, rfl, rfl⟩

/-- C3 (amended).  Starting from a ledger within the ceiling, `run_one`
keeps the ledger within the ceiling at every intermediate state and on
return (registration only happens behind an approving validation); it
registers at most once, and whenever it registers, the last ledger
operation is an unregister call and the registered (name, target) pair is
absent from the final ledger — the registration is released, though the
release may be performed by up to two idempotent `unregister_active`
calls.  Sequences of validate/unregister/`run_one` operations (i.e. with
`register_active` reached only through `run_one`) likewise never exceed
the ceiling; a bare `register_active` is unchecked. -/
theorem C3_ledger_discipline :
    ∀ (cfg : SafetyConfig) (exps : List ChaosExperiment) (env : Env)
      (ledger : Ledger) (entry : PlanEntry) (d : Bool),
      ledger.length ≤ cfg.max_concurrent_experiments →
      ((run_one cfg exps env ledger entry d).ledger.length
          ≤ cfg.max_concurrent_experiments ∧
        ∀ ev ∈ (run_one cfg exps env ledger entry d).trace,
          ev.after.length ≤ cfg.max_concurrent_experiments) ∧
      (((run_one cfg exps env ledger entry d).trace.map Event.kind).count
          .registerCall ≤ 1) ∧
      (.registerCall ∈ (run_one cfg exps env ledger entry d).trace.map Event.kind →
        ((run_one cfg exps env ledger entry d).trace.map Event.kind).getLast?
            = some .unregisterCall ∧
        ∀ e ∈ (run_one cfg exps env ledger entry d).ledger,
          ¬(e.name = entry.experiment ∧ e.target = entry.target)) ∧
      (∀ ops : List LOp, (∀ op ∈ ops, ∀ n t s, op ≠ .registerOp n t s) →
        (applyOps cfg exps ledger ops).length ≤ cfg.max_concurrent_experiments) := by
  intro cfg exps env ledger entry d hle
  exact ⟨run_one_ledger_bound cfg exps env ledger entry d hle,
    (run_one_register_discipline cfg exps env ledger entry d).1,
    (run_one_register_discipline cfg exps env ledger entry d).2,
    fun ops hno => applyOps_no_register_bound cfg exps ops ledger hle hno⟩

/-- C3 witness: the discipline at a concrete failing run from the empty
ledger under the default ceiling of 1. -/
theorem C3_witness :
    ([] : Ledger).length ≤ cfgD.max_concurrent_experiments ∧
    (((run_one cfgD exps0 envRaise [] entry0 false).ledger.length
        ≤ cfgD.max_concurrent_experiments ∧
      ∀ ev ∈ (run_one cfgD exps0 envRaise [] entry0 false).trace,
        ev.after.length ≤ cfgD.max_concurrent_experiments) ∧
     (((run_one cfgD exps0 envRaise [] entry0 false).trace.map Event.kind).count
        .registerCall ≤ 1) ∧
     (.registerCall ∈ (run_one cfgD exps0 envRaise [] entry0 false).trace.map Event.kind →
       ((run_one cfgD exps0 envRaise [] entry0 false).trace.map Event.kind).getLast?
           = some .unregisterCall ∧
       ∀ e ∈ (run_one cfgD exps0 envRaise [] entry0 false).ledger,
         ¬(e.name = entry0.experiment ∧ e.target = entry0.target)) ∧
     (∀ ops : List LOp, (∀ op ∈ ops, ∀ n t s, op ≠ .registerOp n t s) →
       (applyOps cfgD exps0 [] ops).length ≤ cfgD.max_concurrent_experiments)) :=
  ⟨by decide, C3_ledger_discipline cfgD exps0 envRaise [] entry0 false (by decide)⟩

/-- C4 counterexample.  With auto-rollback disabled, `enforce_rollback`
returns before its `try/finally` and does not release the ledger slot: the
entry is still in the ledger afterwards. -/
theorem C4_counterexample_disabled_keeps_slot :
    cfgNoRollback.auto_rollback = false ∧
    (enforce_rollback cfgNoRollback pod_kill "web-7f" "prod" none .ok
        [⟨"pod-kill", "web-7f", "prod"⟩]).ledger =
      [⟨"pod-kill", "web-7f", "prod"⟩] ∧
    (⟨"pod-kill", "web-7f", "prod"⟩ : ActiveEntry) ∈
      (enforce_rollback cfgNoRollback pod_kill "web-7f" "prod" none .ok
        [⟨"pod-kill", "web-7f", "prod"⟩]).ledger :=
  ⟨rfl, rfl, by decide⟩

/-- C4 (amended).  `enforce_rollback` returns without raising for every
variant, target, scope, context, ledger and rollback behaviour; when
auto-rollback is disabled it is a pure logged no-op (no rollback call, no
ledger change); when auto-rollback is enabled, a timeout or exception from
the rollback call is absorbed and the ledger slot is released regardless
of the rollback outcome. -/
theorem C4_enforce_rollback_contract :
    ∀ (cfg : SafetyConfig) (experiment : ChaosExperiment) (target ns : String)
      (context : Option PyDict) (rb : RollbackBehavior) (ledger : Ledger),
      (enforce_rollback cfg experiment target ns context rb ledger).res = .ok () ∧
      (cfg.auto_rollback = false →
        enforce_rollback cfg experiment target ns context rb ledger =
          ⟨.ok (), ledger, []⟩) ∧
      (cfg.auto_rollback = true →
        (enforce_rollback cfg experiment target ns context rb ledger).ledger =
          unregister_active ledger experiment.name target ∧
        (enforce_rollback cfg experiment target ns context rb ledger).trace.map
          Event.kind = [.rollbackCall, .unregisterCall]) := by
  intro cfg experiment target ns context rb ledger
  refine ⟨enforce_rollback_never_raises cfg experiment target ns context rb ledger,
    fun h => enforce_rollback_disabled cfg experiment target ns context rb ledger h,
    fun h => ?_⟩
  rw [enforce_rollback_enabled cfg experiment target ns context rb ledger h]
  exact ⟨rfl, rfl⟩

/-- C4 witness: the contract at a concrete timing-out rollback under the
default (auto-rollback enabled) config. -/
theorem C4_witness :
    (enforce_rollback cfgD pod_kill "web-7f" "prod" none .timesOut
        [⟨"pod-kill", "web-7f", "prod"⟩]).res = .ok () ∧
    cfgD.auto_rollback = true ∧
    ((enforce_rollback cfgD pod_kill "web-7f" "prod" none .timesOut
        [⟨"pod-kill", "web-7f", "prod"⟩]).ledger =
      unregister_active [⟨"pod-kill", "web-7f", "prod"⟩] pod_kill.name "web-7f" ∧
     (enforce_rollback cfgD pod_kill "web-7f" "prod" none .timesOut
        [⟨"pod-kill", "web-7f", "prod"⟩]).trace.map Event.kind =
      [.rollbackCall, .unregisterCall]) :=
  ⟨(C4_enforce_rollback_contract cfgD pod_kill "web-7f" "prod" none .timesOut
      [⟨"pod-kill", "web-7f", "prod"⟩]).1, rfl,
   (C4_enforce_rollback_contract cfgD pod_kill "web-7f" "prod" none .timesOut
      [⟨"pod-kill", "web-7f", "prod"⟩]).2.2 rfl⟩

/-- C5.  `run_plan` runs entries in input order, appending each result:
(1) in non-dry-run mode every result before the last is non-FAILED (it
stops immediately after the first FAILED result); (2) when nothing fails
it processes every entry; (3) the first result is the first entry's
`run_one` result; (4) once the head entry yields FAILED in real-run mode,
the output is exactly that one record and the remaining entries contribute
nothing — no results and no side-effect events; (5) in dry-run mode it
never stops early and yields one result per entry. -/
theorem C5_run_plan_order_failfast :
    ∀ (cfg : SafetyConfig) (exps : List ChaosExperiment),
      (∀ (pairs : List (PlanEntry × Env)) (ledger : Ledger) rs,
        (run_plan cfg exps pairs ledger false).res = .ok rs →
        ∀ r ∈ rs.dropLast, r.status ≠ .failed) ∧
      (∀ (pairs : List (PlanEntry × Env)) (ledger : Ledger) rs,
        (run_plan cfg exps pairs ledger false).res = .ok rs →
        (∀ r ∈ rs, r.status ≠ .failed) → rs.length = pairs.length) ∧
      (∀ (entry : PlanEntry) (env : Env) (rest : List (PlanEntry × Env))
         (ledger : Ledger) (d : Bool) rs,
        (run_plan cfg exps ((entry, env) :: rest) ledger d).res = .ok rs →
        ∃ r1 rs', rs = r1 :: rs' ∧
          (run_one cfg exps env ledger entry d).res = .ok r1) ∧
      (∀ (entry : PlanEntry) (env : Env) (rest : List (PlanEntry × Env))
         (ledger : Ledger) (rA : ExperimentResult),
        (run_one cfg exps env ledger entry false).res = .ok rA →
        rA.status = .failed →
        run_plan cfg exps ((entry, env) :: rest) ledger false =
          ⟨.ok [rA], (run_one cfg exps env ledger entry false).ledger,
           (run_one cfg exps env ledger entry false).trace⟩) ∧
      (∀ (pairs : List (PlanEntry × Env)) (ledger : Ledger),
        ∃ rs, run_plan cfg exps pairs ledger true = ⟨.ok rs, ledger, []⟩ ∧
          rs.length = pairs.length) := by
  intro cfg exps
  exact ⟨run_plan_failfast cfg exps, run_plan_complete cfg exps,
    fun entry env rest ledger d rs h =>
      run_plan_head cfg exps entry env rest ledger d rs h,
    fun entry env rest ledger rA h1 h2 =>
      run_plan_stops cfg exps entry env rest ledger rA h1 h2,
    run_plan_dry cfg exps⟩

/-- C5 witness: the spec's `[A(fails), B, C]` example in real-run mode —
the plan yields exactly the one FAILED record of A. -/
theorem C5_witness :
    (run_one cfgD exps0 envRaise [] entry0 false).res = .ok failedResult0 ∧
    failedResult0.status = .failed ∧
    run_plan cfgD exps0 [(entry0, envRaise), (entry0, envOk), (entry0, envOk)]
        [] false =
      ⟨.ok [failedResult0], (run_one cfgD exps0 envRaise [] entry0 false).ledger,
       (run_one cfgD exps0 envRaise [] entry0 false).trace⟩ :=
  ⟨rfl, rfl,
   (C5_run_plan_order_failfast cfgD exps0).2.2.2.1 entry0 envRaise
     [(entry0, envOk), (entry0, envOk)] [] failedResult0 rfl rfl⟩

/-- C6 counterexample.  In dry-run mode an entry naming an unknown
experiment still yields a FAILED record whose `dry_run` flag is false —
not COMPLETED with `dry_run = true` as the claim states for every entry. -/
theorem C6_counterexample_dry_unknown :
    (run_one cfgD exps0 envOk [] entryUnknown true).res.map
        ExperimentResult.status = .ok .failed ∧
    (run_one cfgD exps0 envOk [] entryUnknown true).res.map
        ExperimentResult.dry_run = .ok false :=
  ⟨rfl, rfl⟩

/-- C6 (amended).  In dry-run mode `run_one` performs no side effect at
all — no client creation, no ledger registration, no execute and no
rollback call (its event trace is empty and the ledger is unchanged);
every entry that resolves in the catalog and passes validation yields
COMPLETED with `dry_run = true` and details echoing the would-be params;
and `run_plan` in dry-run mode never stops early (one result per entry).
Unknown names still yield FAILED and rejected entries SKIPPED, with the
record's `dry_run` flag left false. -/
theorem C6_dry_run_contract :
    ∀ (cfg : SafetyConfig) (exps : List ChaosExperiment) (env : Env)
      (ledger : Ledger) (entry : PlanEntry),
      (run_one cfg exps env ledger entry true).trace = [] ∧
      (run_one cfg exps env ledger entry true).ledger = ledger ∧
      (∀ e, registry_get exps entry.experiment = some e →
        (validate_experiment cfg ledger e entry.target
          (entry.ns.getD "default")).approved = true →
        (run_one cfg exps env ledger entry true).res =
          .ok { experiment_name := entry.experiment, status := .completed,
                target := entry.target, ns := entry.ns.getD "default",
                started_at := env.now, dry_run := true,
                details := [("params", Val.vmap entry.params),
                            ("message", Val.vstr "Dry run — no changes made")] }) ∧
      (∀ (pairs : List (PlanEntry × Env)) (l0 : Ledger),
        ∃ rs, run_plan cfg exps pairs l0 true = ⟨.ok rs, l0, []⟩ ∧
          rs.length = pairs.length) := by
  intro cfg exps env ledger entry
  obtain ⟨_, htr, hl⟩ := run_one_dry_pure cfg exps env ledger entry
  refine ⟨htr, hl, ?_, fun pairs l0 => run_plan_dry cfg exps pairs l0⟩
  intro e h h2
  rw [run_one_dry cfg exps env ledger entry e h h2]

/-- C6 witness: a concrete resolved, approved entry in dry-run mode. -/
theorem C6_witness :
    registry_get exps0 entry0.experiment = some pod_kill ∧
    (validate_experiment cfgD [] pod_kill entry0.target
      (entry0.ns.getD "default")).approved = true ∧
    (run_one cfgD exps0 envOk [] entry0 true).res =
      .ok { experiment_name := entry0.experiment, status := .completed,
            target := entry0.target, ns := entry0.ns.getD "default",
            started_at := envOk.now, dry_run := true,
            details := [("params", Val.vmap entry0.params),
                        ("message", Val.vstr "Dry run — no changes made")] } :=
  ⟨rfl, rfl,
   (C6_dry_run_contract cfgD exps0 envOk [] entry0).2.2.1 pod_kill rfl rfl⟩

/-- C7.  `validate_experiment` evaluates exactly the ordered chain
excluded-scope → blast-radius ceiling → concurrency ceiling,
short-circuiting at the first failure, approving with the fixed reason
otherwise: approval holds iff all three checks pass; each rejection
carries the reason of the first failing check; and the spec's two
examples hold — pod-kill (LOW) under ceiling "low" is approved, a HIGH
experiment under ceiling "medium" is rejected with a reason containing
"exceeds maximum allowed". -/
theorem C7_validate_chain :
    (∀ (cfg : SafetyConfig) (ledger : Ledger) (experiment : ChaosExperiment)
       (target ns : String),
      ((validate_experiment cfg ledger experiment target ns).approved = true ↔
        (ns ∉ cfg.excluded_namespaces ∧
         BLAST_RADIUS_ORDER experiment.blast_radius
           ≤ BLAST_RADIUS_ORDER cfg.max_blast_radius ∧
         ledger.length < cfg.max_concurrent_experiments)) ∧
      (ns ∈ cfg.excluded_namespaces →
        (validate_experiment cfg ledger experiment target ns).reason =
          "Namespace '" ++ ns ++ "' is in the exclusion list") ∧
      (ns ∉ cfg.excluded_namespaces →
        BLAST_RADIUS_ORDER experiment.blast_radius
          > BLAST_RADIUS_ORDER cfg.max_blast_radius →
        (validate_experiment cfg ledger experiment target ns).reason =
          "Experiment blast radius '" ++ experiment.blast_radius.value
            ++ "' exceeds maximum allowed '" ++ cfg.max_blast_radius.value ++ "'") ∧
      (ns ∉ cfg.excluded_namespaces →
        BLAST_RADIUS_ORDER experiment.blast_radius
          ≤ BLAST_RADIUS_ORDER cfg.max_blast_radius →
        ledger.length ≥ cfg.max_concurrent_experiments →
        (validate_experiment cfg ledger experiment target ns).reason =
          "Concurrent experiment limit reached ("
            ++ toString cfg.max_concurrent_experiments ++ ")") ∧
      ((validate_experiment cfg ledger experiment target ns).approved = true →
        (validate_experiment cfg ledger experiment target ns).reason =
          "All safety checks passed")) ∧
    validate_experiment cfgLow [] pod_kill "web-7f" "prod" =
      ⟨true, "All safety checks passed"⟩ ∧
    (validate_experiment cfgD [] SecretDeletion_exp "web-7f" "prod").approved
      = false ∧
    (∃ a b, (validate_experiment cfgD [] SecretDeletion_exp "web-7f" "prod").reason
      = a ++ "exceeds maximum allowed" ++ b) := by
  refine ⟨?_, by decide, by decide,
    ⟨"Experiment blast radius 'high' ", " 'medium'", by decide⟩⟩
  intro cfg ledger experiment target ns
  refine ⟨validate_approved_iff cfg ledger experiment target ns, ?_, ?_, ?_, ?_⟩
  · intro hmem
    unfold validate_experiment
    rw [if_pos hmem]
  · intro hmem hgt
    unfold validate_experiment
    rw [if_neg hmem, if_pos hgt]
  · intro hmem hle hge
    unfold validate_experiment
    rw [if_neg hmem, if_neg (not_lt.mpr hle), if_pos hge]
  · intro happ
    obtain ⟨hmem, hle, hlt⟩ :=
      (validate_approved_iff cfg ledger experiment target ns).mp happ
    unfold validate_experiment
    rw [if_neg hmem, if_neg (not_lt.mpr hle), if_neg (not_le.mpr hlt)]

/-- C7 witness: the exclusion check at a concrete excluded namespace. -/
theorem C7_witness :
    "kube-system" ∈ cfgD.excluded_namespaces ∧
    (validate_experiment cfgD [] pod_kill "web-7f" "kube-system").reason =
      "Namespace 'kube-system' is in the exclusion list" :=
  ⟨by decide,
   (C7_validate_chain.1 cfgD [] pod_kill "web-7f" "kube-system").2.1 (by decide)⟩

/-- C8.  An entry naming an unknown experiment makes `run_one` return a
FAILED record with zero side effects — the ledger is unchanged and the
event trace is empty, so no client is created and no register, execute or
rollback call happens; an entry whose resolved experiment's blast radius
exceeds the configured ceiling makes `run_one` return a SKIPPED record
carrying the rejection reason, again with an empty trace, so neither
execute nor rollback is invoked. -/
theorem C8_unknown_and_radius_gate :
    ∀ (cfg : SafetyConfig) (exps : List ChaosExperiment) (env : Env)
      (ledger : Ledger) (entry : PlanEntry) (d : Bool),
      (registry_get exps entry.experiment = none →
        run_one cfg exps env ledger entry d =
          ⟨.ok { experiment_name := entry.experiment, status := .failed,
                 target := entry.target, ns := entry.ns.getD "default",
                 started_at := env.now,
                 error := some ("Unknown experiment type: " ++ entry.experiment) },
           ledger, []⟩) ∧
      (∀ e, registry_get exps entry.experiment = some e →
        BLAST_RADIUS_ORDER e.blast_radius > BLAST_RADIUS_ORDER cfg.max_blast_radius →
        run_one cfg exps env ledger entry d =
          ⟨.ok { experiment_name := entry.experiment, status := .skipped,
                 target := entry.target, ns := entry.ns.getD "default",
                 started_at := env.now,
                 error := some ("Safety check failed: "
                   ++ (validate_experiment cfg ledger e entry.target
                         (entry.ns.getD "default")).reason) },
           ledger, []⟩) := by
  intro cfg exps env ledger entry d
  refine ⟨run_one_unknown cfg exps env ledger entry d, ?_⟩
  intro e h hgt
  have h2 : (validate_experiment cfg ledger e entry.target
      (entry.ns.getD "default")).approved = false := by
    cases hb : (validate_experiment cfg ledger e entry.target
        (entry.ns.getD "default")).approved with
    | false => rfl
    | true =>
        exact absurd ((validate_approved_iff cfg ledger e entry.target
          (entry.ns.getD "default")).mp hb).2.1 (not_le.mpr hgt)
  exact run_one_rejected cfg exps env ledger entry d e h h2

/-- C8 witness: a concrete unknown entry (FAILED, empty trace) and a
concrete HIGH-radius entry under ceiling "medium" (SKIPPED, empty trace). -/
theorem C8_witness :
    registry_get exps0 entryUnknown.experiment = none ∧
    run_one cfgD exps0 envOk [] entryUnknown false =
      ⟨.ok { experiment_name := entryUnknown.experiment, status := .failed,
             target := entryUnknown.target, ns := entryUnknown.ns.getD "default",
             started_at := envOk.now,
             error := some ("Unknown experiment type: " ++ entryUnknown.experiment) },
       [], []⟩ ∧
    registry_get exps0 entrySecret.experiment = some SecretDeletion_exp ∧
    BLAST_RADIUS_ORDER SecretDeletion_exp.blast_radius
      > BLAST_RADIUS_ORDER cfgD.max_blast_radius ∧
    run_one cfgD exps0 envOk [] entrySecret false =
      ⟨.ok { experiment_name := entrySecret.experiment, status := .skipped,
             target := entrySecret.target, ns := entrySecret.ns.getD "default",
             started_at := envOk.now,
             error := some ("Safety check failed: "
               ++ (validate_experiment cfgD [] SecretDeletion_exp entrySecret.target
                     (entrySecret.ns.getD "default")).reason) },
       [], []⟩ :=
  ⟨rfl, (C8_unknown_and_radius_gate cfgD exps0 envOk [] entryUnknown false).1 rfl,
   rfl, by decide,
   (C8_unknown_and_radius_gate cfgD exps0 envOk [] entrySecret false).2
     SecretDeletion_exp rfl (by decide)⟩

/-- C9 counterexample.  The claim quantifies over every variant, but only
the two config-chaos rollbacks guard on their context.  With a `None`
context, `PodRestart.rollback` still patches the deployment scale — to the
guessed default of 1, not the pre-experiment value — `NodeDrain.rollback`
and `NodeCordon.rollback` patch the node unconditionally, and the
`network-latency` / `packet-loss` rollbacks read the pod and exec
`tc qdisc del` on the defaulted interface `"eth0"`, with nothing catching
an exception from those calls: resource-API mutations, not logged
no-ops. -/
theorem C9_counterexample_rollbacks_mutate :
    PodRestart_rollback none = .patchScale (.vint 1) ∧
    NodeDrain_rollback none = .patchUnschedulable false ∧
    NodeCordon_rollback none = .patchUnschedulable false ∧
    LatencyInjection_rollback none = .tcQdiscDel (.vstr "eth0") ∧
    PacketLoss_rollback none = .tcQdiscDel (.vstr "eth0") :=
  ⟨rfl, rfl, rfl, rfl, rfl⟩

/-- C9 (amended).  The context-guarded rollbacks degrade to a logged no-op
on a missing context: `ConfigMapMutation.rollback` with a `None` context
or without `"original_data"`, and `SecretDeletion.rollback` with a `None`
context or without `"backup"`, perform no resource-API interaction and
return normally.  On the Executor's execute-failure path,
`enforce_rollback` is invoked with no context argument, so every rollback
call recorded in a `run_one` trace carries a `None` context.  But this
does not hold for every variant: `PodRestart.rollback` with a missing
context patches the deployment scale to the guessed default 1, the node
rollbacks patch the node unconditionally, and the tc-based network
rollbacks exec against the defaulted interface `"eth0"` — mutations
despite the absent context. -/
theorem C9_rollback_context_guards :
    ConfigMapMutation_rollback none = .noop ∧
    (∀ ctx : PyDict, pyGet ctx "original_data" = none →
      ConfigMapMutation_rollback (some ctx) = .noop) ∧
    SecretDeletion_rollback none = .noop ∧
    (∀ ctx : PyDict, pyGet ctx "backup" = none →
      SecretDeletion_rollback (some ctx) = .noop) ∧
    (∀ (cfg : SafetyConfig) (exps : List ChaosExperiment) (env : Env)
       (ledger : Ledger) (entry : PlanEntry) (d : Bool),
      ∀ ev ∈ (run_one cfg exps env ledger entry d).trace, ev.ctx = none) ∧
    (∀ context : Option PyDict, PodRestart_rollback context =
      .patchScale ((pyGet (context.getD []) "original_replicas").getD (.vint 1))) ∧
    (∀ context : Option PyDict, NodeDrain_rollback context =
      .patchUnschedulable false) ∧
    (∀ context : Option PyDict, NodeCordon_rollback context =
      .patchUnschedulable false) ∧
    (∀ context : Option PyDict, LatencyInjection_rollback context =
      .tcQdiscDel ((pyGet (context.getD []) "interface").getD (.vstr "eth0"))) ∧
    (∀ context : Option PyDict, PacketLoss_rollback context =
      .tcQdiscDel ((pyGet (context.getD []) "interface").getD (.vstr "eth0"))) := by
  refine ⟨rfl, ?_, rfl, ?_,
    fun cfg exps env ledger entry d => run_one_ctx_none cfg exps env ledger entry d,
    fun _ => rfl, fun _ => rfl, fun _ => rfl, fun _ => rfl, fun _ => rfl⟩
  · intro ctx h
    simp [ConfigMapMutation_rollback, h, pyTruthy]
  · intro ctx h
    simp [SecretDeletion_rollback, h, pyTruthy]

/-- C9 witness: empty contexts take the config-variant no-op paths, the
concrete trace of a failing run only ever hands `None` to rollback, and
`PodRestart.rollback` on that same absent context patches the scale to
1. -/
theorem C9_witness :
    pyGet [] "original_data" = none ∧
    ConfigMapMutation_rollback (some []) = .noop ∧
    pyGet [] "backup" = none ∧
    SecretDeletion_rollback (some []) = .noop ∧
    (∀ ev ∈ (run_one cfgD exps0 envRaise [] entry0 false).trace, ev.ctx = none) ∧
    PodRestart_rollback none = .patchScale (.vint 1) :=
  ⟨rfl, C9_rollback_context_guards.2.1 [] rfl, rfl,
   C9_rollback_context_guards.2.2.2.1 [] rfl,
   C9_rollback_context_guards.2.2.2.2.1 cfgD exps0 envRaise [] entry0 false,
   C9_rollback_context_guards.2.2.2.2.2.1 none⟩

/-- C10.  `unregister_active name target` removes every ledger entry whose
name and target both match, regardless of the namespace it was registered
under (non-matching entries survive); it is idempotent; and after two
registrations of the same name and target under different namespaces, a
single call removes both. -/
theorem C10_unregister_ignores_namespace :
    ∀ (l : Ledger) (n t : String),
      (∀ e ∈ unregister_active l n t, ¬(e.name = n ∧ e.target = t)) ∧
      (∀ e ∈ l, ¬(e.name = n ∧ e.target = t) → e ∈ unregister_active l n t) ∧
      unregister_active (unregister_active l n t) n t = unregister_active l n t ∧
      ∀ s1 s2, unregister_active (register_active (register_active l n t s1) n t s2)
          n t = unregister_active l n t := by
  intro l n t
  exact ⟨unregister_not_mem l n t, unregister_keeps l n t, unregister_idem l n t,
    fun s1 s2 => unregister_register_pair l n t s1 s2⟩

/-- C10 witness: a concrete two-entry ledger — the entry differing in name
or target survives a removal that ignores namespaces. -/
theorem C10_witness :
    ((⟨"x", "y", "ns"⟩ : ActiveEntry) ∈
      unregister_active [⟨"e", "t", "d"⟩, ⟨"x", "y", "ns"⟩] "e" "t") ∧
    ¬((⟨"x", "y", "ns"⟩ : ActiveEntry).name = "e" ∧
        (⟨"x", "y", "ns"⟩ : ActiveEntry).target = "t") ∧
    unregister_active (register_active (register_active [] "e" "t" "ns1") "e" "t" "ns2")
      "e" "t" = [] :=
  ⟨by decide,
   (C10_unregister_ignores_namespace [⟨"e", "t", "d"⟩, ⟨"x", "y", "ns"⟩] "e" "t").1
     ⟨"x", "y", "ns"⟩ (by decide),
   (C10_unregister_ignores_namespace [] "e" "t").2.2.2 "ns1" "ns2"⟩
